import Mathlib

/-!
Verification of the MedAgent360 client-side orchestration core
(medagent-ui): the lab-report and prescription document workflow
controllers, the follow-up controller, the language selector state and
the dashboard snapshot policy, shallowly embedded from the React
sources (LabReport.jsx, Prescription.jsx, FollowUp.jsx, Dashboard.jsx,
UI.jsx, api.js).
-/

namespace MedAgent

/-- The three-letter language codes of the UI (LanguageCode enum). -/
inductive Lang
  | en
  | te
  | hi
deriving DecidableEq

/-- LANG_MAP from LabReport.jsx / Prescription.jsx: maps a language code
to the long-form name sent to the service. -/
def LANG_MAP : Lang → String
  | .en => "English"
  | .te => "Telugu"
  | .hi => "Hindi"

/-- JavaScript truthiness of a possibly-absent string: undefined, null
and the empty string are falsy. -/
def jsTruthy : Option String → Bool
  | some s => s ≠ ""
  | none => false

/-- The JavaScript expression a OR b for possibly-absent strings
(written with vertical bars in the source): yields a when a is truthy,
else b. -/
def jsOr (a b : Option String) : Option String :=
  if jsTruthy a then a else b

/-- The JavaScript expression a OR b where b is a string literal
fallback. -/
def jsOrStr (a : Option String) (b : String) : String :=
  if jsTruthy a then a.getD "" else b

/-- Client-side severity tier used by the UI (LabRow status). -/
inductive Severity
  | normal
  | high
  | critical
deriving DecidableEq

/-- The JavaScript toUpperCase string method, character by character. -/
def jsToUpper (s : String) : String :=
  ⟨s.data.map Char.toUpper⟩

/-- getStatus from LabReport.jsx (lines 48-53): case-normalizes the
source status string (a missing status reads as the empty string) and
maps CRITICAL to critical, HIGH to high, LOW to high, anything else to
normal. The JavaScript local s is inlined. -/
def getStatus (status : Option String) : Severity :=
  if jsToUpper (status.getD "") = "CRITICAL" ∨ jsToUpper (status.getD "") = "HIGH" then
    (if jsToUpper (status.getD "") = "CRITICAL" then Severity.critical else Severity.high)
  else if jsToUpper (status.getD "") = "LOW" then Severity.high
  else Severity.normal

/-- One row of classified_values in the lab AnalysisResult. -/
structure LabValue where
  test : String
  value : String
  unit : Option String
  benchmark_min : Option String
  benchmark_max : Option String
  status : Option String
deriving DecidableEq

/-- patient_info of the lab AnalysisResult. -/
structure PatientInfo where
  name : String
  age : String
  date : String
deriving DecidableEq

/-- stats of the lab AnalysisResult. -/
structure LabStats where
  total : Nat
  normal : Nat
  abnormal : Nat
deriving DecidableEq

/-- The lab-report AnalysisResult payload, fields as consumed by
LabReport.jsx. -/
structure LabResult where
  patient_info : Option PatientInfo
  stats : Option LabStats
  classified_values : List LabValue
  summary : Option String
  critical_flags : List String
deriving DecidableEq

/-- Severity tags rendered for the rows of a lab result: getStatus
applied to each entry of classified_values (LabReport.jsx line 148). -/
def rowStatuses (r : LabResult) : List Severity :=
  r.classified_values.map (fun v => getStatus v.status)

/-- Claim C1: the client-side severity classification applied to each
entry of classified_values is a pure, total, deterministic function of
the status string: after case-normalization CRITICAL maps to critical,
HIGH maps to high, LOW maps to high, and every other value, a missing
status included, maps to normal; for every input the result is one of
normal, high, critical. -/
theorem C1_getStatus_spec (st : Option String) :
    (getStatus st = Severity.normal ∨ getStatus st = Severity.high ∨
      getStatus st = Severity.critical)
    ∧ (jsToUpper (st.getD "") = "CRITICAL" → getStatus st = Severity.critical)
    ∧ (jsToUpper (st.getD "") = "HIGH" → getStatus st = Severity.high)
    ∧ (jsToUpper (st.getD "") = "LOW" → getStatus st = Severity.high)
    ∧ (jsToUpper (st.getD "") ≠ "CRITICAL" → jsToUpper (st.getD "") ≠ "HIGH" →
        jsToUpper (st.getD "") ≠ "LOW" → getStatus st = Severity.normal)
    ∧ (getStatus none = Severity.normal)
    ∧ (∀ v w : LabValue, v.status = w.status →
        getStatus v.status = getStatus w.status)
    ∧ (∀ r : LabResult, ∀ v ∈ r.classified_values,
        getStatus v.status ∈ rowStatuses r) := by
  refine ⟨?_, ?_, ?_, ?_, ?_, by decide, ?_, ?_⟩
  · unfold getStatus
    split_ifs <;> simp
  · intro h
    unfold getStatus
    split_ifs <;> simp_all
  · intro h
    unfold getStatus
    split_ifs <;> simp_all
  · intro h
    unfold getStatus
    split_ifs <;> simp_all
  · intro h1 h2 h3
    unfold getStatus
    split_ifs <;> simp_all
  · intro v w h
    rw [h]
  · intro r v hv
    exact List.mem_map_of_mem _ hv

/-- Witness for C1 at concrete inputs: the status string Low
case-normalizes to LOW and is classified high. -/
theorem C1_witness :
    (jsToUpper ((some "Low" : Option String).getD "") = "LOW")
    ∧ getStatus (some "Low") = Severity.high :=
  ⟨by decide, (C1_getStatus_spec (some "Low")).2.2.2.1 (by decide)⟩

/-- A file object as delivered by the browser file input: a name and
raw bytes. -/
structure JsFile where
  name : String
  content : List Nat
deriving DecidableEq

/-- A request issued through the Service Client analyzeLabReport or
parsePrescription operation (api.js): the file plus the long-form
language name. -/
structure AnalyzeRequest where
  file : JsFile
  language : String
deriving DecidableEq

/-- The shape of an axios error as destructured by the pages:
responseDetail embeds the optional chain err.response data detail, and
message embeds err.message. -/
structure AxiosErr where
  responseDetail : Option String
  message : Option String
deriving DecidableEq

/-- The concrete state cells of the LabReport page component: result,
loading, error, fileName, the file retained by the hidden file input
(fileRef), and the per-workflow output language. -/
structure LabState where
  result : Option LabResult
  loading : Bool
  error : Option String
  fileName : String
  fileRef : Option JsFile
  outputLang : Lang
deriving DecidableEq

/-- Initial LabReport state: useState initializers, with the output
language seeded from the global UI language prop. -/
def labInit (l : Lang) : LabState :=
  { result := none, loading := false, error := none, fileName := "",
    fileRef := none, outputLang := l }

/-- The error message computed by the catch branches of handleUpload
and handleReanalyze in LabReport.jsx: detail, else err.message, else
the literal fallback. -/
def labErrMsg (e : AxiosErr) : String :=
  jsOrStr (jsOr e.responseDetail e.message) "Analysis failed"

/-- Synchronous prefix of handleUpload (LabReport.jsx lines 17-25): if
the selected file list is empty, return without touching state; else
record the file name, enter loading, clear error and result, and issue
an analyze request for the file at the current output language. The
file input element retains the selected file. -/
def labUploadStart (st : LabState) (files : List JsFile) :
    LabState × Option AnalyzeRequest :=
  match files.head? with
  | none => (st, none)
  | some f =>
      ({ st with fileName := f.name, loading := true, error := none,
                 result := none, fileRef := some f },
       some { file := f, language := LANG_MAP st.outputLang })

/-- Completion of an in-flight analyze request (the try, catch and
finally blocks shared verbatim by handleUpload and handleReanalyze): on
success store the result, on failure store the error message; either
way leave loading. -/
def labSettle (st : LabState) (resp : Except AxiosErr LabResult) : LabState :=
  match resp with
  | .ok data => { st with result := some data, loading := false }
  | .error e => { st with error := some (labErrMsg e), loading := false }

/-- Synchronous prefix of handleReanalyze (LabReport.jsx lines 34-39):
return without any request if the file input holds no file, else enter
loading, clear error (the result is NOT cleared) and issue an analyze
request reusing the retained file at the current output language. -/
def labReanalyzeStart (st : LabState) : LabState × Option AnalyzeRequest :=
  match st.fileRef with
  | none => (st, none)
  | some f =>
      ({ st with loading := true, error := none },
       some { file := f, language := LANG_MAP st.outputLang })

/-- The LangStrip onChange handler wired to setOutputLang
(LabReport.jsx line 109): it only replaces the output language and
issues no request. -/
def labSetOutputLang (st : LabState) (l : Lang) :
    LabState × Option AnalyzeRequest :=
  ({ st with outputLang := l }, none)

/-- The Idle variant of WorkflowState is active: the upload zone is the
rendered view and neither a result, an error nor a pending request
exists. -/
def labActiveIdle (st : LabState) : Prop :=
  st.result = none ∧ st.error = none ∧ st.loading = false

/-- The Pending variant is active: a request is in flight. -/
def labActivePending (st : LabState) : Prop :=
  st.loading = true

/-- The Succeeded variant is active: a result is stored and rendered
(the results panel shows when result is set and loading is off). -/
def labActiveSucceeded (st : LabState) : Prop :=
  st.result.isSome = true ∧ st.loading = false

/-- The Failed variant is active: an error message is stored and its
banner rendered. -/
def labActiveFailed (st : LabState) : Prop :=
  st.error.isSome = true

/-- Exactly one of the four WorkflowState variants is active. -/
def labExactlyOne (st : LabState) : Prop :=
  (labActiveIdle st ∧ ¬ labActivePending st ∧ ¬ labActiveSucceeded st ∧
    ¬ labActiveFailed st) ∨
  (labActivePending st ∧ ¬ labActiveIdle st ∧ ¬ labActiveSucceeded st ∧
    ¬ labActiveFailed st) ∨
  (labActiveSucceeded st ∧ ¬ labActiveIdle st ∧ ¬ labActivePending st ∧
    ¬ labActiveFailed st) ∨
  (labActiveFailed st ∧ ¬ labActiveIdle st ∧ ¬ labActivePending st ∧
    ¬ labActiveSucceeded st)

/-- One user-or-network event of the LabReport page: file selection,
completion of the in-flight request (only possible while loading),
the re-analyze action (its button is rendered only with a result shown
and loading off), or an output-language switch. -/
inductive LabStep : LabState → LabState → Prop
  | upload (st : LabState) (files : List JsFile) :
      LabStep st (labUploadStart st files).1
  | settle (st : LabState) (resp : Except AxiosErr LabResult)
      (h : st.loading = true) :
      LabStep st (labSettle st resp)
  | reanalyze (st : LabState) (h : st.result.isSome = true)
      (h2 : st.loading = false) :
      LabStep st (labReanalyzeStart st).1
  | setLang (st : LabState) (l : Lang) :
      LabStep st (labSetOutputLang st l).1

/-- States of the LabReport page reachable from initialization. -/
inductive LabReachable : LabState → Prop
  | init (l : Lang) : LabReachable (labInit l)
  | step {st st' : LabState} : LabReachable st → LabStep st st' →
      LabReachable st'

/-- While a request is in flight the error cell is clear: both
handleUpload and handleReanalyze clear error when they set loading, and
every settle clears loading. -/
theorem lab_loading_no_error {st : LabState} (h : LabReachable st) :
    st.loading = true → st.error = none := by
  induction h with
  | init l => simp [labInit]
  | step hr hs ih =>
      rename_i st st'
      cases hs with
      | upload files =>
          cases hf : files.head? with
          | none => simp only [labUploadStart, hf]; exact ih
          | some f => simp [labUploadStart, hf]
      | settle resp h =>
          cases resp <;> simp [labSettle]
      | reanalyze h h2 =>
          cases hf : st.fileRef with
          | none => simp only [labReanalyzeStart, hf]; exact ih
          | some f => simp [labReanalyzeStart, hf]
      | setLang l =>
          simpa [labSetOutputLang] using ih

/-- A concrete selected file. -/
def exFile : JsFile := { name := "report.pdf", content := [37, 80, 68, 70] }

/-- A concrete classified value. -/
def exValue : LabValue :=
  { test := "Glucose", value := "142", unit := none,
    benchmark_min := some "70", benchmark_max := some "100",
    status := some "HIGH" }

/-- A concrete successful lab analysis payload. -/
def exResult : LabResult :=
  { patient_info := none,
    stats := some { total := 1, normal := 0, abnormal := 1 },
    classified_values := [exValue],
    summary := none, critical_flags := [] }

/-- A concrete service failure. -/
def exErr : AxiosErr := { responseDetail := some "Analysis failed", message := none }

/-- State after selecting exFile on the fresh LabReport page. -/
def labAfterUpload : LabState := (labUploadStart (labInit Lang.en) [exFile]).1

/-- State after the upload request succeeds with exResult. -/
def labAfterSuccess : LabState := labSettle labAfterUpload (Except.ok exResult)

/-- State after clicking re-analyze from the succeeded state. -/
def labAfterReanalyze : LabState := (labReanalyzeStart labAfterSuccess).1

/-- State after the re-analyze request fails with exErr. -/
def labAfterReanalyzeFail : LabState :=
  labSettle labAfterReanalyze (Except.error exErr)

/-- Counterexample to claim C2 as stated: the state reached by a
successful upload followed by a failed re-analyze is reachable and has
both the Failed message and the retained Succeeded result active at
once, so exactly one WorkflowState being active fails there. -/
theorem C2_counterexample :
    LabReachable labAfterReanalyzeFail
    ∧ labActiveFailed labAfterReanalyzeFail
    ∧ labActiveSucceeded labAfterReanalyzeFail
    ∧ ¬ labExactlyOne labAfterReanalyzeFail := by
  refine ⟨?_, ?_, ?_, ?_⟩
  · exact LabReachable.step (LabReachable.step (LabReachable.step
      (LabReachable.step (LabReachable.init Lang.en)
        (LabStep.upload (labInit Lang.en) [exFile]))
      (LabStep.settle labAfterUpload (Except.ok exResult) (by decide)))
      (LabStep.reanalyze labAfterSuccess (by decide) (by decide)))
      (LabStep.settle labAfterReanalyze (Except.error exErr) (by decide))
  · exact rfl
  · exact ⟨rfl, rfl⟩
  · unfold labExactlyOne labActiveIdle labActivePending labActiveSucceeded
      labActiveFailed
    decide

/-- Claim C2 as amended: every Lab Workflow Controller state that is
reachable has exactly one active WorkflowState, except that after a
failed re-analyze the Failed message and the retained Succeeded result
are active together (and in that case neither Pending nor Idle is
active); moreover Pending is never skipped: a valid file selection
always yields a Pending-only state, and a settle while Pending yields
Succeeded on success and Failed on failure. -/
theorem C2_lab_workflow_states (st : LabState) (h : LabReachable st) :
    (labExactlyOne st ∨
      (labActiveFailed st ∧ labActiveSucceeded st ∧ ¬ labActivePending st ∧
        ¬ labActiveIdle st))
    ∧ (∀ f files, files.head? = some f →
        labActivePending (labUploadStart st files).1
        ∧ ¬ labActiveSucceeded (labUploadStart st files).1
        ∧ ¬ labActiveFailed (labUploadStart st files).1
        ∧ ¬ labActiveIdle (labUploadStart st files).1)
    ∧ (st.loading = true →
        (∀ r, labActiveSucceeded (labSettle st (Except.ok r))
           ∧ ¬ labActiveFailed (labSettle st (Except.ok r))
           ∧ ¬ labActivePending (labSettle st (Except.ok r)))
        ∧ (∀ e, labActiveFailed (labSettle st (Except.error e))
           ∧ ¬ labActivePending (labSettle st (Except.error e)))) := by
  have hle := lab_loading_no_error h
  refine ⟨?_, ?_, ?_⟩
  · by_cases hl : st.loading = true
    · have he := hle hl
      refine Or.inl (Or.inr (Or.inl ?_))
      unfold labActivePending labActiveIdle labActiveSucceeded labActiveFailed
      simp [hl, he]
    · have hl2 : st.loading = false := by simpa using hl
      unfold labExactlyOne labActivePending labActiveIdle labActiveSucceeded
        labActiveFailed
      cases he : st.error with
      | none =>
          cases hr : st.result with
          | none => exact Or.inl (Or.inl (by simp [hl2, he, hr]))
          | some r =>
              exact Or.inl (Or.inr (Or.inr (Or.inl (by simp [hl2, he, hr]))))
      | some m =>
          cases hr : st.result with
          | none =>
              exact Or.inl (Or.inr (Or.inr (Or.inr (by simp [hl2, he, hr]))))
          | some r => exact Or.inr (by simp [hl2, he, hr])
  · intro f files hf
    unfold labActivePending labActiveIdle labActiveSucceeded labActiveFailed
    simp [labUploadStart, hf]
  · intro hl
    have he := hle hl
    constructor
    · intro r
      unfold labActivePending labActiveSucceeded labActiveFailed
      simp [labSettle, he]
    · intro e
      unfold labActivePending labActiveFailed
      simp [labSettle]

/-- Witness for C2 as amended, at the initial state. -/
theorem C2_witness :
    labExactlyOne (labInit Lang.en) ∨
      (labActiveFailed (labInit Lang.en) ∧ labActiveSucceeded (labInit Lang.en) ∧
        ¬ labActivePending (labInit Lang.en) ∧ ¬ labActiveIdle (labInit Lang.en)) :=
  (C2_lab_workflow_states (labInit Lang.en) (LabReachable.init Lang.en)).1

/-- Claim C3: re-analyze reuses the retained originally selected file
at the output language current at the time of the action, never a
stale one; with no retained file no request is issued and the state is
untouched. The retained file cell is set at selection time to the
selected file and is never changed by request completion or language
switching. -/
theorem C3_reanalyze_uses_current (st : LabState) :
    (∀ f, st.fileRef = some f →
        (labReanalyzeStart st).2 =
          some { file := f, language := LANG_MAP st.outputLang }
        ∧ (labReanalyzeStart st).1.loading = true)
    ∧ (st.fileRef = none →
        (labReanalyzeStart st).2 = none ∧ (labReanalyzeStart st).1 = st)
    ∧ (∀ resp, (labSettle st resp).fileRef = st.fileRef)
    ∧ (∀ l, (labSetOutputLang st l).1.fileRef = st.fileRef)
    ∧ (∀ f files, files.head? = some f →
        (labUploadStart st files).1.fileRef = some f
        ∧ (labUploadStart st files).2 =
            some { file := f, language := LANG_MAP st.outputLang }) := by
  refine ⟨?_, ?_, ?_, ?_, ?_⟩
  · intro f hf
    simp [labReanalyzeStart, hf]
  · intro hf
    simp [labReanalyzeStart, hf]
  · intro resp
    cases resp <;> simp [labSettle]
  · intro l
    simp [labSetOutputLang]
  · intro f files hf
    simp [labUploadStart, hf]

/-- A concrete succeeded-like state with a retained file, for the C3
witness. -/
def c3State : LabState :=
  { result := none, loading := false, error := none, fileName := "scan.pdf",
    fileRef := some { name := "scan.pdf", content := [1, 2] },
    outputLang := Lang.te }

/-- Witness for C3 at a concrete state: re-analyze issues the request
with the retained file and the current (Telugu) output language. -/
theorem C3_witness :
    c3State.fileRef = some { name := "scan.pdf", content := [1, 2] }
    ∧ (labReanalyzeStart c3State).2 =
        some { file := { name := "scan.pdf", content := [1, 2] },
               language := LANG_MAP c3State.outputLang } :=
  ⟨rfl, ((C3_reanalyze_uses_current c3State).1 _ rfl).1⟩

/-- Claim C7: switching the per-workflow output language issues no
Service Client request and leaves every other state cell, the stored
result in particular, unchanged; only the output language used to pick
the rendered language-tagged fields changes. -/
theorem C7_lang_switch_pure (st : LabState) (l : Lang) :
    (labSetOutputLang st l).2 = none
    ∧ (labSetOutputLang st l).1.result = st.result
    ∧ (labSetOutputLang st l).1.error = st.error
    ∧ (labSetOutputLang st l).1.loading = st.loading
    ∧ (labSetOutputLang st l).1.fileName = st.fileName
    ∧ (labSetOutputLang st l).1.fileRef = st.fileRef
    ∧ (labSetOutputLang st l).1.outputLang = l :=
  ⟨rfl, rfl, rfl, rfl, rfl, rfl, rfl⟩

/-- One medicine card of the prescription AnalysisResult. -/
structure RxMed where
  medicine : String
  dosage : Option String
  frequency : Option String
  timing : Option String
  duration : Option String
  special_notes : Option String
  translated_instruction : Option String
deriving DecidableEq

/-- The prescription AnalysisResult payload, fields as consumed by
Prescription.jsx. -/
structure RxResult where
  ocr_text : Option String
  ocr_confidence : Option Nat
  medicines : List RxMed
  message : Option String
deriving DecidableEq

/-- The concrete state cells of the Prescription page component. -/
structure RxState where
  result : Option RxResult
  loading : Bool
  error : Option String
  fileName : String
  fileRef : Option JsFile
  outputLang : Lang
deriving DecidableEq

/-- Initial Prescription state. -/
def rxInit (l : Lang) : RxState :=
  { result := none, loading := false, error := none, fileName := "",
    fileRef := none, outputLang := l }

/-- The error message computed by the catch branch of handleUpload in
Prescription.jsx. -/
def rxErrMsg (e : AxiosErr) : String :=
  jsOrStr (jsOr e.responseDetail e.message) "Parsing failed"

/-- Synchronous prefix of handleUpload in Prescription.jsx (lines
17-25), identical in shape to the lab one. -/
def rxUploadStart (st : RxState) (files : List JsFile) :
    RxState × Option AnalyzeRequest :=
  match files.head? with
  | none => (st, none)
  | some f =>
      ({ st with fileName := f.name, loading := true, error := none,
                 result := none, fileRef := some f },
       some { file := f, language := LANG_MAP st.outputLang })

/-- Completion of an in-flight parse request in Prescription.jsx. -/
def rxSettle (st : RxState) (resp : Except AxiosErr RxResult) : RxState :=
  match resp with
  | .ok data => { st with result := some data, loading := false }
  | .error e => { st with error := some (rxErrMsg e), loading := false }

/-- The Try Again button of the error banner (Prescription.jsx line
78): clears error then result. -/
def rxTryAgain (st : RxState) : RxState :=
  { st with error := none, result := none }

/-- The Upload Another button of the result panel (Prescription.jsx
line 150): clears result then error. -/
def rxUploadAnother (st : RxState) : RxState :=
  { st with result := none, error := none }

/-- The LangStrip onChange handler of the prescription page. -/
def rxSetOutputLang (st : RxState) (l : Lang) : RxState × Option AnalyzeRequest :=
  ({ st with outputLang := l }, none)

/-- The Idle variant is active on the prescription page: the upload
zone is rendered (no result, no loading and, unlike the lab page, no
error either). -/
def rxActiveIdle (st : RxState) : Prop :=
  st.result = none ∧ st.error = none ∧ st.loading = false

/-- The Pending variant is active on the prescription page. -/
def rxActivePending (st : RxState) : Prop :=
  st.loading = true

/-- The Succeeded variant is active on the prescription page. -/
def rxActiveSucceeded (st : RxState) : Prop :=
  st.result.isSome = true ∧ st.loading = false

/-- The Failed variant is active on the prescription page. -/
def rxActiveFailed (st : RxState) : Prop :=
  st.error.isSome = true

/-- One user-or-network event of the Prescription page. The Try Again
button is rendered only inside the error banner and Upload Another only
inside the result panel. -/
inductive RxStep : RxState → RxState → Prop
  | upload (st : RxState) (files : List JsFile) :
      RxStep st (rxUploadStart st files).1
  | settle (st : RxState) (resp : Except AxiosErr RxResult)
      (h : st.loading = true) :
      RxStep st (rxSettle st resp)
  | tryAgain (st : RxState) (h : st.error.isSome = true) :
      RxStep st (rxTryAgain st)
  | uploadAnother (st : RxState) (h : st.result.isSome = true)
      (h2 : st.loading = false) :
      RxStep st (rxUploadAnother st)
  | setLang (st : RxState) (l : Lang) :
      RxStep st (rxSetOutputLang st l).1

/-- A lab state with the Succeeded or Failed variant active is not
Idle-active. -/
theorem lab_not_idle_of_active {st : LabState}
    (h : labActiveSucceeded st ∨ labActiveFailed st) : ¬ labActiveIdle st := by
  rcases h with ⟨h1, _⟩ | h1 <;> rintro ⟨hr, he, hl⟩
  · rw [hr] at h1; simp at h1
  · unfold labActiveFailed at h1; rw [he] at h1; simp at h1

/-- Claim C9: the reset-to-Idle transition is exposed only by the
prescription workflow, from Failed via Try Again and from Succeeded via
Upload Another, both of which clear result and error so the upload zone
shows again; the lab-report workflow has no exposed transition from
Succeeded or Failed into Idle, and from Succeeded it supports the
re-analyze transition in place. -/
theorem C9_reset_asymmetry (st : LabState) (rst : RxState) :
    (rst.error.isSome = true → rst.loading = false →
        RxStep rst (rxTryAgain rst) ∧ rxActiveIdle (rxTryAgain rst))
    ∧ (rst.result.isSome = true → rst.loading = false →
        RxStep rst (rxUploadAnother rst) ∧ rxActiveIdle (rxUploadAnother rst))
    ∧ ((labActiveSucceeded st ∨ labActiveFailed st) →
        ∀ st', LabStep st st' → ¬ labActiveIdle st')
    ∧ (labActiveSucceeded st → LabStep st (labReanalyzeStart st).1) := by
  refine ⟨?_, ?_, ?_, ?_⟩
  · intro he hl
    exact ⟨RxStep.tryAgain rst he, by simp [rxActiveIdle, rxTryAgain, hl]⟩
  · intro hr hl
    exact ⟨RxStep.uploadAnother rst hr hl,
      by simp [rxActiveIdle, rxUploadAnother, hl]⟩
  · intro hsf st' hstep
    cases hstep with
    | upload files =>
        cases hf : files.head? with
        | none =>
            simp only [labUploadStart, hf]
            exact lab_not_idle_of_active hsf
        | some f => simp [labUploadStart, hf, labActiveIdle]
    | settle resp h =>
        cases resp <;> simp [labSettle, labActiveIdle]
    | reanalyze h h2 =>
        cases hf : st.fileRef with
        | none =>
            simp only [labReanalyzeStart, hf]
            exact lab_not_idle_of_active hsf
        | some f => simp [labReanalyzeStart, hf, labActiveIdle]
    | setLang l =>
        simp only [labSetOutputLang]
        intro hidle
        exact lab_not_idle_of_active hsf ⟨hidle.1, hidle.2.1, hidle.2.2⟩
  · intro hs
    exact LabStep.reanalyze st hs.1 hs.2

/-- A concrete failed prescription state, for the C9 witness. -/
def rxFailedState : RxState :=
  { result := none, loading := false, error := some "Parsing failed",
    fileName := "p.jpg", fileRef := none, outputLang := Lang.en }

/-- Witness for C9 at concrete states: a failed prescription state
resets to Idle via Try Again, and the succeeded lab state admits the
re-analyze step. -/
theorem C9_witness :
    (RxStep rxFailedState (rxTryAgain rxFailedState)
      ∧ rxActiveIdle (rxTryAgain rxFailedState))
    ∧ LabStep labAfterSuccess (labReanalyzeStart labAfterSuccess).1 :=
  ⟨((C9_reset_asymmetry (labInit Lang.en) rxFailedState).1 rfl rfl),
   ((C9_reset_asymmetry labAfterSuccess (rxInit Lang.en)).2.2.2 ⟨rfl, rfl⟩)⟩

/-- A status record rendered under the check-in button or the enroll
form: an ok flag and a message. -/
structure StatusMsg where
  ok : Bool
  msg : String
deriving DecidableEq

/-- The response payload of the sendCheckin Service Client operation. -/
structure CheckinResponse where
  message_sid : Option String
deriving DecidableEq

/-- The enrollment draft record accumulated by the form fields. -/
structure EnrollForm where
  phone : String
  name : String
  language : String
  doctorPhone : String
deriving DecidableEq

/-- The concrete state cells of the FollowUp page component. -/
structure FollowUpState where
  chatLang : Lang
  inputText : String
  checkinStatus : Option StatusMsg
  checkinLoading : Bool
  enrollForm : EnrollForm
  enrollStatus : Option StatusMsg
deriving DecidableEq

/-- The initial enrollment draft of FollowUp.jsx line 12. -/
def emptyEnrollForm : EnrollForm :=
  { phone := "", name := "", language := "English", doctorPhone := "" }

/-- Initial FollowUp state: useState initializers, with the chat
language seeded from the global UI language prop. -/
def followInit (l : Lang) : FollowUpState :=
  { chatLang := l, inputText := "", checkinStatus := none,
    checkinLoading := false, enrollForm := emptyEnrollForm,
    enrollStatus := none }

/-- The request issued by the sendCheckin Service Client operation. -/
structure CheckinRequest where
  phone : String
  name : String
  language : String
deriving DecidableEq

/-- Synchronous prefix of handleTriggerCheckin (FollowUp.jsx lines
22-26): enter loading, clear the status, and call sendCheckin with the
hardcoded phone and patient name and the long-form name of the current
chat output language. -/
def triggerCheckinStart (st : FollowUpState) : FollowUpState × CheckinRequest :=
  ({ st with checkinLoading := true, checkinStatus := none },
   { phone := "+919999999999", name := "Ravi Kumar",
     language := if st.chatLang = Lang.te then "Telugu"
       else if st.chatLang = Lang.hi then "Hindi" else "English" })

/-- The success status built in handleTriggerCheckin (line 27):
ok with a SID message when message_sid is truthy, else ok with the
demo-mode message. -/
def checkinSuccessMsg (r : CheckinResponse) : StatusMsg :=
  if jsTruthy r.message_sid then
    { ok := true,
      msg := "✅ Check-in sent (SID: " ++ r.message_sid.getD "" ++ ")" }
  else
    { ok := true,
      msg := "✅ Check-in triggered (Twilio not configured — demo mode)" }

/-- The failure status built in the catch branch of
handleTriggerCheckin (lines 29-30): not ok, message is a warning
prefix followed by the structured detail, else err.message, else the
literal fallback. -/
def checkinFailureMsg (e : AxiosErr) : StatusMsg :=
  { ok := false,
    msg := "⚠️ " ++ jsOrStr (jsOr e.responseDetail e.message)
      "Check-in failed — Twilio credentials may be missing" }

/-- Completion of an in-flight sendCheckin call: record the success or
failure status and leave loading. -/
def triggerCheckinSettle (st : FollowUpState)
    (resp : Except AxiosErr CheckinResponse) : FollowUpState :=
  match resp with
  | .ok r => { st with checkinStatus := some (checkinSuccessMsg r),
                       checkinLoading := false }
  | .error e => { st with checkinStatus := some (checkinFailureMsg e),
                          checkinLoading := false }

/-- Claim C4: a sendCheckin success with no confirmation id is recorded
as a success carrying the distinct demo-mode message, never as a
failure; with a confirmation id the success message includes it; and no
failure status is ever marked ok. -/
theorem C4_checkin_demo_mode (st : FollowUpState) (r : CheckinResponse) :
    ((triggerCheckinSettle st (Except.ok r)).checkinStatus =
        some (checkinSuccessMsg r))
    ∧ (checkinSuccessMsg r).ok = true
    ∧ (r.message_sid = none →
        (checkinSuccessMsg r).msg =
          "✅ Check-in triggered (Twilio not configured — demo mode)")
    ∧ (∀ s, r.message_sid = some s → s ≠ "" →
        (checkinSuccessMsg r).msg = "✅ Check-in sent (SID: " ++ s ++ ")")
    ∧ ((checkinSuccessMsg { message_sid := none }).msg ≠
        (checkinSuccessMsg { message_sid := some "SM1" }).msg)
    ∧ (∀ e, (checkinFailureMsg e).ok = false) := by
  refine ⟨rfl, ?_, ?_, ?_, by decide, fun e => rfl⟩
  · unfold checkinSuccessMsg
    split_ifs <;> rfl
  · intro h
    simp [checkinSuccessMsg, jsTruthy, h]
  · intro s hs hne
    simp [checkinSuccessMsg, jsTruthy, hs, hne]

/-- Witness for C4 at a concrete response with no confirmation id. -/
theorem C4_witness :
    (checkinSuccessMsg { message_sid := none }).msg =
      "✅ Check-in triggered (Twilio not configured — demo mode)" :=
  (C4_checkin_demo_mode (followInit Lang.en) { message_sid := none }).2.2.1 rfl

/-- The concrete failure of example scenario 3: HTTP 400 with detail
Twilio not configured. -/
def twilioErr : AxiosErr :=
  { responseDetail := some "Twilio not configured",
    message := some "Request failed with status code 400" }

/-- Counterexample to claim C5 as stated: on the scenario-3 failure the
recorded Failed message is the warning-prefixed detail, which is not
exactly equal to the detail string itself. -/
theorem C5_counterexample :
    ((triggerCheckinSettle (followInit Lang.en) (Except.error twilioErr)).checkinStatus =
        some (checkinFailureMsg twilioErr))
    ∧ (checkinFailureMsg twilioErr).msg = "⚠️ Twilio not configured"
    ∧ (checkinFailureMsg twilioErr).msg ≠ "Twilio not configured" :=
  ⟨rfl, by decide, by decide⟩

/-- Claim C5 as amended: a sendCheckin failure with a non-empty
structured detail reaches a not-ok status whose message is exactly the
detail string behind the fixed warning prefix; with no usable detail
the transport error message, else the literal fallback, follows the
same prefix instead. -/
theorem C5_checkin_failure_message (st : FollowUpState) (e : AxiosErr) :
    ((triggerCheckinSettle st (Except.error e)).checkinStatus =
        some (checkinFailureMsg e))
    ∧ ((triggerCheckinSettle st (Except.error e)).checkinLoading = false)
    ∧ ((checkinFailureMsg e).ok = false)
    ∧ (∀ d, e.responseDetail = some d → d ≠ "" →
        (checkinFailureMsg e).msg = "⚠️ " ++ d)
    ∧ (∀ m, jsTruthy e.responseDetail = false → e.message = some m → m ≠ "" →
        (checkinFailureMsg e).msg = "⚠️ " ++ m)
    ∧ (jsTruthy e.responseDetail = false → jsTruthy e.message = false →
        (checkinFailureMsg e).msg =
          "⚠️ Check-in failed — Twilio credentials may be missing") := by
  refine ⟨rfl, rfl, rfl, ?_, ?_, ?_⟩
  · intro d hd hne
    unfold checkinFailureMsg jsOrStr jsOr
    rw [hd]
    simp [jsTruthy, hne]
  · intro m hd hm hne
    unfold checkinFailureMsg jsOrStr jsOr
    rw [hm, hd]
    simp [jsTruthy, hne]
  · intro hd hm
    unfold checkinFailureMsg jsOrStr jsOr
    rw [hd]
    simp [hm]

/-- Witness for C5 as amended, at the scenario-3 failure. -/
theorem C5_witness :
    (checkinFailureMsg twilioErr).msg = "⚠️ " ++ "Twilio not configured" :=
  ((C5_checkin_failure_message (followInit Lang.en) twilioErr).2.2.2.1
    "Twilio not configured" rfl (by decide))

/-- The request issued by the enrollPatient Service Client operation. -/
structure EnrollRequest where
  phone : String
  name : String
  language : String
  doctor_phone : String
deriving DecidableEq

/-- Synchronous prefix of handleEnroll (FollowUp.jsx lines 36-39): it
unconditionally calls enrollPatient with the draft form fields; no
client-side validation is performed and no state cell changes before
the call. -/
def enrollSubmit (st : FollowUpState) : FollowUpState × Option EnrollRequest :=
  (st, some { phone := st.enrollForm.phone, name := st.enrollForm.name,
              language := st.enrollForm.language,
              doctor_phone := st.enrollForm.doctorPhone })

/-- An enrollment draft with an empty phone and a name filled in. -/
def emptyPhoneForm : EnrollForm :=
  { phone := "", name := "Ravi Kumar", language := "English",
    doctorPhone := "" }

/-- A follow-up state whose enrollment draft has an empty phone. -/
def emptyPhoneState : FollowUpState :=
  { chatLang := Lang.en, inputText := "", checkinStatus := none,
    checkinLoading := false, enrollForm := emptyPhoneForm,
    enrollStatus := none }

/-- Counterexample to claim C6 as stated: submitting the enrollment
form with an empty phone still invokes enrollPatient (a request is
issued), so the submission is not rejected client-side. -/
theorem C6_counterexample :
    emptyPhoneState.enrollForm.phone = ""
    ∧ (enrollSubmit emptyPhoneState).2 ≠ none
    ∧ (enrollSubmit emptyPhoneState).1 = emptyPhoneState :=
  ⟨rfl, by simp [enrollSubmit], rfl⟩

/-- Claim C6 as amended: enrollment submissions undergo no client-side
validation at all; even with an empty phone or name, enrollPatient is
invoked with the draft fields exactly as entered, and the page state is
unchanged at submission time. -/
theorem C6_enroll_no_validation (st : FollowUpState)
    (h : st.enrollForm.phone = "" ∨ st.enrollForm.name = "") :
    (∃ req, (enrollSubmit st).2 = some req
      ∧ req.phone = st.enrollForm.phone
      ∧ req.name = st.enrollForm.name
      ∧ req.language = st.enrollForm.language
      ∧ req.doctor_phone = st.enrollForm.doctorPhone)
    ∧ (enrollSubmit st).1 = st :=
  ⟨⟨_, rfl, rfl, rfl, rfl, rfl⟩, rfl⟩

/-- Witness for C6 as amended, at the empty-phone state. -/
theorem C6_witness :
    (∃ req, (enrollSubmit emptyPhoneState).2 = some req
      ∧ req.phone = emptyPhoneState.enrollForm.phone
      ∧ req.name = emptyPhoneState.enrollForm.name
      ∧ req.language = emptyPhoneState.enrollForm.language
      ∧ req.doctor_phone = emptyPhoneState.enrollForm.doctorPhone)
    ∧ (enrollSubmit emptyPhoneState).1 = emptyPhoneState :=
  C6_enroll_no_validation emptyPhoneState (Or.inl rfl)

/-- Claim C10: the manual check-in trigger always calls sendCheckin
with the fixed phone and patient name, whatever the page state; only
the language varies, derived from the current chat output language. -/
theorem C10_checkin_fixed_identity (st st2 : FollowUpState) :
    ((triggerCheckinStart st).2.phone = "+919999999999")
    ∧ ((triggerCheckinStart st).2.name = "Ravi Kumar")
    ∧ (st.chatLang = Lang.te → (triggerCheckinStart st).2.language = "Telugu")
    ∧ (st.chatLang = Lang.hi → (triggerCheckinStart st).2.language = "Hindi")
    ∧ (st.chatLang = Lang.en → (triggerCheckinStart st).2.language = "English")
    ∧ (st.chatLang = st2.chatLang →
        (triggerCheckinStart st).2 = (triggerCheckinStart st2).2) := by
  refine ⟨rfl, rfl, ?_, ?_, ?_, ?_⟩
  · intro h; simp [triggerCheckinStart, h]
  · intro h; simp [triggerCheckinStart, h]
  · intro h; simp [triggerCheckinStart, h]
  · intro h; simp [triggerCheckinStart, h]

/-- Witness for C10 with the chat language set to Telugu. -/
theorem C10_witness :
    (triggerCheckinStart (followInit Lang.te)).2.language = "Telugu" :=
  (C10_checkin_fixed_identity (followInit Lang.te) (followInit Lang.te)).2.2.1 rfl

/-- The dashboard statistics snapshot. -/
structure DashStats where
  lab_count : Nat
  rx_count : Nat
  alert_count : Nat
  recovery_day : Nat
deriving DecidableEq

/-- The hardcoded default snapshot of Dashboard.jsx (line 10). -/
def dashboardInit : DashStats :=
  { lab_count := 24, rx_count := 4, alert_count := 3, recovery_day := 5 }

/-- Completion of the getDashboardStats fetch (Dashboard.jsx lines
12-16): then replaces the stats, catch does nothing — the failure is
swallowed and the page has no error cell at all, so nothing can be
surfaced. -/
def dashboardSettle (st : DashStats) (resp : Except AxiosErr DashStats) :
    DashStats :=
  match resp with
  | .ok data => data
  | .error _ => st

/-- Claim C8: a failed dashboard stats fetch is swallowed, leaving the
displayed stats at the hardcoded defaults lab 24, rx 4, alerts 3,
recovery day 5 (failure changes nothing at all, and there is no error
cell to surface anything through); a successful fetch replaces the
defaults with the fetched snapshot. -/
theorem C8_dashboard_degrade (resp : Except AxiosErr DashStats) :
    (∀ e, resp = Except.error e →
        dashboardSettle dashboardInit resp = dashboardInit)
    ∧ (dashboardInit.lab_count = 24 ∧ dashboardInit.rx_count = 4
        ∧ dashboardInit.alert_count = 3 ∧ dashboardInit.recovery_day = 5)
    ∧ (∀ d, resp = Except.ok d → dashboardSettle dashboardInit resp = d)
    ∧ (∀ st e, dashboardSettle st (Except.error e) = st) := by
  refine ⟨?_, ⟨rfl, rfl, rfl, rfl⟩, ?_, ?_⟩
  · rintro e rfl; rfl
  · rintro d rfl; rfl
  · intro st e; rfl

/-- Witness for C8 at a concrete failed fetch. -/
theorem C8_witness :
    dashboardSettle dashboardInit (Except.error exErr) = dashboardInit :=
  (C8_dashboard_degrade (Except.error exErr)).1 exErr rfl

end MedAgent
